import Mathlib

/-!
Shallow embedding of the PR-review bot (NestJS/TypeScript sources under
`src/`): the Bitbucket data model (`pull-request.interface.ts`), the
message renderer and delivery queue (`pachka.service.ts`), the durable
thread store (`message-store.service.ts`), and the reconciliation loop
(`bitbucket.service.ts`).  JavaScript truthiness on optional values is
made explicit via `jsTruthyStr` / `jsTruthyNat`; file I/O of the store is
assumed reliable (the in-memory map is the state; the write/read-back
cycle of `saveStore` has no observable effect on it).
-/

namespace PRBot

/-- `BitbucketUser` from `pull-request.interface.ts`. -/
structure BitbucketUser where
  display_name : String
  account_id : String
deriving DecidableEq, Repr

/-- One element of `PullRequest.participants`. `state` is optional in the
source (`state?: 'approved' | 'changes_requested' | 'pending'`). -/
structure Participant where
  user : BitbucketUser
  role : String
  approved : Bool
  state : Option String
deriving DecidableEq, Repr

structure Branch where
  name : String
deriving DecidableEq, Repr

structure RepoRef where
  full_name : String
deriving DecidableEq, Repr

structure SourceRef where
  branch : Branch
  repository : RepoRef
deriving DecidableEq, Repr

structure DestRef where
  branch : Branch
deriving DecidableEq, Repr

structure HtmlLink where
  href : String
deriving DecidableEq, Repr

structure PrLinks where
  html : HtmlLink
deriving DecidableEq, Repr

/-- `PullRequest` from `pull-request.interface.ts`; `state` ranges over
"OPEN" | "MERGED" | "DECLINED" | "SUPERSEDED". -/
structure PullRequest where
  id : Nat
  title : String
  description : String
  created_on : String
  updated_on : String
  state : String
  author : BitbucketUser
  reviewers : List BitbucketUser
  participants : List Participant
  source : SourceRef
  destination : DestRef
  links : PrLinks
deriving DecidableEq, Repr

/-- JS truthiness of an optional string (`undefined` and `""` are falsy). -/
def jsTruthyStr : Option String → Bool
  | none => false
  | some s => s ≠ ""

/-- JS truthiness of an optional number (`undefined` and `0` are falsy). -/
def jsTruthyNat : Option Nat → Bool
  | none => false
  | some n => n ≠ 0

/-- `pr.participants.find((p) => p.user.account_id === reviewer.account_id)`. -/
def findParticipant (pr : PullRequest) (reviewer : BitbucketUser) : Option Participant :=
  pr.participants.find? (fun p => p.user.account_id = reviewer.account_id)

/-- The predicate inside `hasPendingReviewers` / the `pendingReviewers`
filter (`pachka.service.ts` lines 199-208 and 268-277):
`!participant?.approved && participant?.state !== 'changes_requested'`.
A missing participation record is pending. -/
def isPendingReviewer (pr : PullRequest) (reviewer : BitbucketUser) : Bool :=
  match findParticipant pr reviewer with
  | none => true
  | some p => !p.approved && p.state ≠ some "changes_requested"

/-- `hasPendingReviewers` (identical in `pachka.service.ts` 199-208 and
`bitbucket.service.ts` 318-327). -/
def hasPendingReviewers (pr : PullRequest) : Bool :=
  pr.reviewers.any (isPendingReviewer pr)

/-- `allReviewersApproved` (`pachka.service.ts` 284-291):
non-empty reviewer list and `participantInfo?.approved === true` for each. -/
def allReviewersApproved (pr : PullRequest) : Bool :=
  decide (0 < pr.reviewers.length) &&
    pr.reviewers.all (fun r =>
      match findParticipant pr r with
      | none => false
      | some p => p.approved)

/-- The optional identity→mention mapping `reviewerMappings`
(a parsed JSON object of display-name → mention strings). -/
def ReviewerMappings := List (String × String)

def lookupMapping (cfg : ReviewerMappings) (name : String) : Option String :=
  (List.find? (fun p => p.1 = name) cfg).map Prod.snd

/-- `mention ? displayName + " - " + mention : displayName` — JS truthiness,
so an empty-string mention falls back to the raw display name. -/
def resolveMention (cfg : ReviewerMappings) (name : String) : String :=
  match lookupMapping cfg name with
  | none => name
  | some m => if m = "" then name else name ++ " - " ++ m

/-- `pendingReviewers` of `formatPullRequestUpdateMessage`
(`pachka.service.ts` 268-282): the pending subset of `pr.reviewers`, in
snapshot order, resolved through the mention mapping. -/
def pendingReviewerMentions (cfg : ReviewerMappings) (pr : PullRequest) : List String :=
  (pr.reviewers.filter (isPendingReviewer pr)).map
    (fun r => resolveMention cfg r.display_name)

/-- The all-approved reply text (`pachka.service.ts` 293-312). -/
def allApprovedMessage (cfg : ReviewerMappings) (pr : PullRequest) : String :=
  let displayName := resolveMention cfg pr.author.display_name
  let reviewersText :=
    String.intercalate "\n" (pr.reviewers.map (fun r => "✅ " ++ r.display_name))
  String.intercalate "\n"
    [ "🎉 *Все ревьюеры одобрили PR!*"
    , displayName ++ ", ваш PR готов к мерджу:"
    , "PR: " ++ pr.title
    , ""
    , "*Одобрено:*"
    , reviewersText
    , ""
    , "🔗 " ++ pr.links.html.href ]

/-- The reminder reply text (`pachka.service.ts` 314-324), given the
already-resolved pending-reviewer list. -/
def reminderMessage (pending : List String) (pr : PullRequest) : String :=
  String.intercalate "\n"
    ([ "🔄 Напоминание о ревью"
     , "PR: " ++ pr.title
     , ""
     , "Ожидается ревью от:" ]
     ++ pending.map (fun name => "• " ++ name)
     ++ [ ""
        , "🔗 " ++ pr.links.html.href ])

/-- Outcome of the update renderer for an existing thread: the three-way
branch structure of `formatPullRequestUpdateMessage`. -/
inductive UpdateOutcome where
  | allApproved : UpdateOutcome
  | reminderUpdate (pending : List String) : UpdateOutcome
  | noChange : UpdateOutcome
deriving DecidableEq, Repr

/-- The branch taken by `formatPullRequestUpdateMessage`
(`pachka.service.ts` 267-327): the all-approved branch when
`pr.state === 'OPEN' && allReviewersApproved`, else the reminder branch
when `pendingReviewers.length > 0`, else nothing. -/
def classifyUpdate (cfg : ReviewerMappings) (pr : PullRequest) : UpdateOutcome :=
  let pending := pendingReviewerMentions cfg pr
  if pr.state = "OPEN" && allReviewersApproved pr then .allApproved
  else if 0 < pending.length then .reminderUpdate pending
  else .noChange

/-- `formatPullRequestUpdateMessage` (`pachka.service.ts` 267-327):
`string | null` result rendered from the branch taken. -/
def formatPullRequestUpdateMessage (cfg : ReviewerMappings) (pr : PullRequest) :
    Option String :=
  match classifyUpdate cfg pr with
  | .allApproved => some (allApprovedMessage cfg pr)
  | .reminderUpdate pending => some (reminderMessage pending pr)
  | .noChange => none

/-- Per-reviewer status glyph in `formatPullRequestMessage`
(`pachka.service.ts` 237-241). -/
def reviewerStatusIcon (pr : PullRequest) (reviewer : BitbucketUser) : String :=
  match findParticipant pr reviewer with
  | none => "⏳"
  | some p =>
    if p.approved then "✅"
    else if p.state = some "changes_requested" then "🔴"
    else "⏳"

/-- `formatPullRequestMessage` (`pachka.service.ts` 231-265): the root
message for a new pull request. `.filter(Boolean)` drops the empty-string
elements before the final join. -/
def formatPullRequestMessage (pr : PullRequest) : String :=
  let reviewersText :=
    String.intercalate "\n"
      (pr.reviewers.map (fun r => reviewerStatusIcon pr r ++ " " ++ r.display_name))
  String.intercalate "\n"
    ((List.filter (fun s => s ≠ "")
      [ "🟢 *Новый Pull Request*"
      , ""
      , "*Название:* " ++ pr.title
      , "*Автор:* " ++ pr.author.display_name
      , "*Статус:* " ++ (if pr.state = "OPEN" then "Открыт" else pr.state)
      , "*Репозиторий:* " ++ pr.source.repository.full_name
      , "*Ветки:* " ++ pr.source.branch.name ++ " → " ++ pr.destination.branch.name
      , ""
      , "*Ревьюеры:*"
      , (if reviewersText = "" then "Нет назначенных ревьюеров" else reviewersText)
      , ""
      , (if pr.description = "" then ""
         else String.intercalate "\n" ["*Описание:*", pr.description, ""])
      , "🔗 " ++ pr.links.html.href ]))

/-! ### Thread store (`message-store.service.ts`) -/

/-- One value of the `MessageStore` map: `{ messageId, repository, updatedAt }`. -/
structure StoredRec where
  messageId : String
  repository : String
  updatedAt : String
deriving DecidableEq, Repr

/-- The in-memory store `this.store` — a map keyed by pull-request id,
modelled as an association list (each key occurs at most once; the
JS object key order plays no role in the modelled behaviours). -/
abbrev MessageStore := List (Nat × StoredRec)

def lookupPR (store : MessageStore) (prId : Nat) : Option StoredRec :=
  (List.find? (fun p => p.1 = prId) store).map Prod.snd

/-- `this.store[prId] = {...}` — upsert. -/
def setPR (store : MessageStore) (prId : Nat) (rec : StoredRec) : MessageStore :=
  (store.filter (fun p => p.1 ≠ prId)) ++ [(prId, rec)]

/-- `delete this.store[prId]`. -/
def erasePR (store : MessageStore) (prId : Nat) : MessageStore :=
  store.filter (fun p => p.1 ≠ prId)

/-- `getMessageId` (`message-store.service.ts` 81-88): `stored || null`,
so an empty stored id reads back as absent. -/
def getMessageId (store : MessageStore) (prId : Nat) : Option String :=
  match lookupPR store prId with
  | none => none
  | some rec => if rec.messageId = "" then none else some rec.messageId

/-- `saveMessageId` (`message-store.service.ts` 90-127): validate
(`!messageId || !prId || !repository` throws), upsert, persist
(`saveStore`, I/O assumed reliable), then read back and verify.
`now` stands for `new Date().toISOString()`. -/
def saveMessageId (store : MessageStore) (prId : Nat) (messageId : String)
    (repository : String) (now : String) : Except String MessageStore :=
  if messageId = "" || prId = 0 || repository = "" then
    .error "Invalid message data for storage"
  else
    let store2 := setPR store prId ⟨messageId, repository, now⟩
    if getMessageId store2 prId ≠ some messageId then
      .error "Message ID verification failed"
    else
      .ok store2

/-- `removePR` (`message-store.service.ts` 129-163): no-op when absent or
when the stored repository differs; otherwise delete, persist and verify
the deletion. -/
def removePR (store : MessageStore) (prId : Nat) (repository : String) :
    Except String MessageStore :=
  match lookupPR store prId with
  | none => .ok store
  | some storedPR =>
    if storedPR.repository ≠ repository then .ok store
    else
      let store2 := erasePR store prId
      if (lookupPR store2 prId).isSome then
        .error "PR removal verification failed"
      else
        .ok store2

/-- Element type of `getAllPRs` (`pachka.service.ts` `StoredPR`):
the pr id is stringified by `Object.entries`. -/
structure StoredPR where
  prId : String
  repository : String
  messageId : String
deriving DecidableEq, Repr

/-- `getAllPRs` (`message-store.service.ts` 165-173). -/
def getAllPRs (store : MessageStore) : List StoredPR :=
  store.map (fun p => ⟨toString p.1, p.2.repository, p.2.messageId⟩)

/-! ### Delivery queue (`pachka.service.ts`) -/

/-- `QueuedMessage` (`pachka.service.ts` 8-14). -/
structure QueuedMessage where
  message : String
  parentMessageId : Option String
  prId : Option Nat
  repository : Option String
  retries : Nat
deriving DecidableEq, Repr

def MAX_RETRIES : Nat := 3

/-- Combined mutable state of the two services: the outbound queue and
`isProcessing` flag of `PachkaService`, plus the thread store. -/
structure SysState where
  messageQueue : List QueuedMessage
  store : MessageStore
  isProcessing : Bool
deriving DecidableEq, Repr

/-- Outcome of one HTTP call to the chat gateway: a success whose payload
may or may not carry a (truthy) `data.data.id`, or an error with its
`error.response?.status`. -/
inductive CallResult where
  | ok (id : Option String)
  | err (status : Option Nat)
deriving DecidableEq, Repr

/-- The gateway responses one drain attempt can consume: the first
`POST /messages`, the `POST /messages/:id/thread` that a root post makes,
and the clock value used if `saveMessageId` runs. -/
structure DrainEnv where
  postResult : CallResult
  threadResult : CallResult
  now : String
deriving Repr

/-- The `try` body of `processMessageQueue` for the head message
(`pachka.service.ts` 70-127), as a function of the gateway responses.
Success returns the (possibly updated) store; failure carries the status
the `catch` observes (`none` for a thrown non-HTTP error, e.g. the
`saveMessageId` validation throw). -/
def attemptDeliver (store : MessageStore) (m : QueuedMessage) (env : DrainEnv) :
    Except (Option Nat) MessageStore :=
  if jsTruthyStr m.parentMessageId then
    -- threaded reply: any successful response is terminal success
    match env.postResult with
    | .ok _ => .ok store
    | .err s => .error s
  else
    -- root post
    match env.postResult with
    | .err s => .error s
    | .ok none => .ok store      -- no `response.data?.data?.id`: skip thread creation
    | .ok (some _) =>
      match env.threadResult with
      | .err s => .error s
      | .ok threadId =>
        if jsTruthyNat m.prId && jsTruthyStr m.repository then
          -- a missing thread id reaches `saveMessageId` as `undefined`,
          -- which its `!messageId` check rejects exactly like `""`
          match saveMessageId store (m.prId.getD 0) (threadId.getD "")
              (m.repository.getD "") env.now with
          | .ok store2 => .ok store2
          | .error _ => .error none
        else .ok store

/-- `processMessageQueue` (`pachka.service.ts` 60-150): skip when already
processing or empty; otherwise attempt the head, and on a 429 either
increment its retry counter in place or, once the counter has reached
`MAX_RETRIES`, drop it; any other failure drops it. The `finally` clause
restores `isProcessing := false`. -/
def processMessageQueue (st : SysState) (env : DrainEnv) : SysState :=
  if st.isProcessing || st.messageQueue.isEmpty then st
  else
    match st.messageQueue with
    | [] => st
    | m :: rest =>
      match attemptDeliver st.store m env with
      | .ok store2 => ⟨rest, store2, false⟩
      | .error s =>
        if s = some 429 then
          if m.retries < MAX_RETRIES then
            ⟨{ m with retries := m.retries + 1 } :: rest, st.store, false⟩
          else ⟨rest, st.store, false⟩
        else ⟨rest, st.store, false⟩

/-- The message whose delivery a drain trigger attempts:
`const message = this.messageQueue[0]`, reached only when the guard of
`processMessageQueue` falls through. -/
def drainAttempt (st : SysState) : Option QueuedMessage :=
  if st.isProcessing || st.messageQueue.isEmpty then none
  else st.messageQueue.head?

/-- `queueMessage` (`pachka.service.ts` 210-229): append to the tail with
`retries := 0`. -/
def queueMessage (queue : List QueuedMessage) (message : String)
    (parentMessageId : Option String) (prId : Option Nat)
    (repository : Option String) : List QueuedMessage :=
  queue ++ [⟨message, parentMessageId, prId, repository, 0⟩]

/-- `sendPullRequestNotification` (`pachka.service.ts` 152-197): if a
message id is stored for the pull request, enqueue the update reply (when
the renderer produces one) addressed to it; otherwise enqueue the root
message. Only the queue changes. -/
def sendPullRequestNotification (cfg : ReviewerMappings) (st : SysState)
    (pr : PullRequest) : SysState :=
  let repository := pr.source.repository.full_name
  match getMessageId st.store pr.id with
  | some existingMessageId =>
    match formatPullRequestUpdateMessage cfg pr with
    | some updateMessage =>
      { st with messageQueue :=
          (queueMessage st.messageQueue updateMessage (some existingMessageId)
            (some pr.id) (some repository)) }
    | none => st
  | none =>
    { st with messageQueue :=
        (queueMessage st.messageQueue (formatPullRequestMessage pr) none
          (some pr.id) (some repository)) }

/-! ### Reconciliation cycle (`bitbucket.service.ts`) -/

/-- The per-open-PR body of the `checkPullRequests` cron
(`bitbucket.service.ts` 242-252): the notification is sent only when
`hasPendingReviewers` holds. -/
def checkOpenPR (cfg : ReviewerMappings) (st : SysState) (pr : PullRequest) :
    SysState :=
  if hasPendingReviewers pr then sendPullRequestNotification cfg st pr else st

/-- The open-PR loop of one `checkPullRequests` pass over a repository. -/
def checkOpenPRs (cfg : ReviewerMappings) (st : SysState)
    (prs : List PullRequest) : SysState :=
  prs.foldl (checkOpenPR cfg) st

/-- Result of the single-PR status request underlying `getPRStatus`. -/
inductive StatusResult where
  | ok (state : String)
  | err (status : Option Nat)
deriving DecidableEq, Repr

/-- `getPRStatus` (`bitbucket.service.ts` 295-316): a 404 is mapped to
"CLOSED"; any other error propagates. -/
def getPRStatus (resp : StatusResult) : Except (Option Nat) String :=
  match resp with
  | .ok s => .ok s
  | .err status => if status = some 404 then .ok "CLOSED" else .error status

def parseNatAux (acc : Nat) : List Char → Option Nat
  | [] => some acc
  | c :: cs =>
    if '0' ≤ c && c ≤ '9' then parseNatAux (acc * 10 + (c.toNat - '0'.toNat)) cs
    else none

/-- The JS unary `+` coercion on the stringified pr id (`+prId` in
`removeFromStore`): decimal digits parse to the number; the ids reaching
it come from `Object.entries` keys, i.e. `toString` of a `Nat`. -/
def jsParseNat (s : String) : Nat :=
  (parseNatAux 0 s.data).getD 0

/-- `removeFromStore` (`pachka.service.ts` 367-373): `+prId` string→number
conversion, `removePR`, errors caught and logged. -/
def removeFromStore (store : MessageStore) (prId : String) (repository : String) :
    MessageStore :=
  match removePR store (jsParseNat prId) repository with
  | .ok store2 => store2
  | .error _ => store

/-- The closure sweep of `checkPullRequests` for one stored PR
(`bitbucket.service.ts` 258-283): skip ids still observed open; query the
status (its failure is caught, skipping the removal); remove the entry
when the status is not "OPEN". -/
def sweepStoredPR (store : MessageStore) (sp : StoredPR) (repository : String)
    (activePRIds : List String) (resp : StatusResult) : MessageStore :=
  if sp.prId ∈ activePRIds then store
  else
    match getPRStatus resp with
    | .error _ => store
    | .ok prStatus =>
      if prStatus ≠ "OPEN" then removeFromStore store sp.prId repository
      else store

/-! ### Sample values used to exercise the definitions -/

def sampleA : BitbucketUser := ⟨"Alice", "a1"⟩

def sampleB : BitbucketUser := ⟨"Bob", "b1"⟩

def sampleAuthor : BitbucketUser := ⟨"Carol", "c1"⟩

/-- An open PR whose two reviewers both have approved participation records. -/
def samplePrAllApproved : PullRequest :=
  { id := 1, title := "T", description := "", created_on := "", updated_on := ""
  , state := "OPEN", author := sampleAuthor, reviewers := [sampleA, sampleB]
  , participants :=
      [ ⟨sampleA, "REVIEWER", true, some "approved"⟩
      , ⟨sampleB, "REVIEWER", true, some "approved"⟩ ]
  , source := ⟨⟨"feature"⟩, ⟨"ws/repo"⟩⟩, destination := ⟨⟨"main"⟩⟩
  , links := ⟨⟨"http://x"⟩⟩ }

/-- Like `samplePrAllApproved` but Bob has no participation record. -/
def samplePrPending : PullRequest :=
  { samplePrAllApproved with
      participants := [⟨sampleA, "REVIEWER", true, some "approved"⟩] }

/-- A store holding thread "42" for PR 1 of repository "ws/repo". -/
def sampleStore : MessageStore := [(1, ⟨"42", "ws/repo", "t0"⟩)]

def sampleCfg : ReviewerMappings := [("Bob", "@bob")]

def sampleReplyMsg : QueuedMessage := ⟨"hello", some "42", some 1, some "ws/repo", 0⟩

def sampleRootMsg : QueuedMessage := ⟨"rootmsg", none, some 1, some "ws/repo", 0⟩

def sampleNextMsg : QueuedMessage := ⟨"next", none, none, none, 0⟩

/-- Gateway answering 429 to every call. -/
def sampleEnv429 : DrainEnv := ⟨.err (some 429), .err (some 429), "t"⟩

/-- Gateway accepting the post but returning a payload without `data.data.id`. -/
def sampleEnvNoId : DrainEnv := ⟨.ok none, .ok none, "t"⟩

/-! ### Helper lemmas about the store -/

lemma find?_filter_ne (s : MessageStore) (prId : Nat) :
    (s.filter (fun p => p.1 ≠ prId)).find? (fun p => p.1 = prId) = none := by
  rw [List.find?_eq_none]
  intro x hx
  have hmem := (List.mem_filter.mp hx).2
  simp only [ne_eq, decide_not, Bool.not_eq_true', decide_eq_false_iff_not] at hmem
  simpa using hmem

lemma lookupPR_setPR_self (s : MessageStore) (prId : Nat) (rec : StoredRec) :
    lookupPR (setPR s prId rec) prId = some rec := by
  unfold lookupPR setPR
  rw [List.find?_append, find?_filter_ne]
  simp [List.find?]

lemma lookupPR_erasePR_self (s : MessageStore) (prId : Nat) :
    lookupPR (erasePR s prId) prId = none := by
  unfold lookupPR erasePR
  rw [find?_filter_ne]
  rfl

/-- A successful `saveMessageId` run: validation passes and the read-back
verification succeeds, returning the upserted store. -/
lemma saveMessageId_ok (s : MessageStore) (prId : Nat) (messageId repository now : String)
    (hid : prId ≠ 0) (hmid : messageId ≠ "") (hrepo : repository ≠ "") :
    saveMessageId s prId messageId repository now =
      .ok (setPR s prId ⟨messageId, repository, now⟩) := by
  unfold saveMessageId
  rw [if_neg, if_neg]
  · unfold getMessageId
    rw [lookupPR_setPR_self]
    simp [hmid]
  · simp [hid, hmid, hrepo]

/-- `removePR` deletes the entry when it exists under the same repository,
and the deletion verification passes. -/
lemma removePR_deletes (s : MessageStore) (prId : Nat) (repository : String)
    (rec : StoredRec) (hfound : lookupPR s prId = some rec)
    (hrepo : rec.repository = repository) :
    removePR s prId repository = .ok (erasePR s prId) := by
  unfold removePR
  rw [hfound]
  simp only [hrepo, ne_eq, not_true_eq_false, if_false, ite_false]
  rw [lookupPR_erasePR_self]
  rfl

/-- `removePR` is a no-op when the id is absent. -/
lemma removePR_absent (s : MessageStore) (prId : Nat) (repository : String)
    (habsent : lookupPR s prId = none) :
    removePR s prId repository = .ok s := by
  unfold removePR
  rw [habsent]

/-! ### Claim theorems -/

/-- C7: for a non-zero pull-request id and non-empty thread-id and
repository strings, calling the thread store `saveMessageId` twice with
identical arguments does not raise — both calls return `.ok` — and the
stored lookup (`getMessageId`) after the second call equals the one after
the first call, namely the written thread id. -/
theorem c7_saveMessageId_idempotent (store : MessageStore) (prId : Nat)
    (messageId repository now1 now2 : String)
    (hid : prId ≠ 0) (hmid : messageId ≠ "") (hrepo : repository ≠ "") :
    ∃ s1 s2,
      saveMessageId store prId messageId repository now1 = .ok s1 ∧
      saveMessageId s1 prId messageId repository now2 = .ok s2 ∧
      getMessageId s2 prId = getMessageId s1 prId ∧
      getMessageId s1 prId = some messageId := by
  refine ⟨setPR store prId ⟨messageId, repository, now1⟩,
          setPR (setPR store prId ⟨messageId, repository, now1⟩) prId
            ⟨messageId, repository, now2⟩,
          saveMessageId_ok store prId messageId repository now1 hid hmid hrepo,
          saveMessageId_ok _ prId messageId repository now2 hid hmid hrepo, ?_, ?_⟩
  · unfold getMessageId
    rw [lookupPR_setPR_self, lookupPR_setPR_self]
  · unfold getMessageId
    rw [lookupPR_setPR_self]
    simp [hmid]

/-- C7 witness: the theorem applied at `prId = 1`, `messageId = "42"`,
`repository = "r"`. -/
theorem c7_saveMessageId_idempotent_witness :
    (1 : Nat) ≠ 0 ∧ "42" ≠ "" ∧ "r" ≠ "" ∧
    ∃ s1 s2,
      saveMessageId [] 1 "42" "r" "t1" = .ok s1 ∧
      saveMessageId s1 1 "42" "r" "t2" = .ok s2 ∧
      getMessageId s2 1 = getMessageId s1 1 ∧
      getMessageId s1 1 = some "42" :=
  ⟨by decide, by decide, by decide,
   c7_saveMessageId_idempotent [] 1 "42" "r" "t1" "t2"
     (by decide) (by decide) (by decide)⟩

/-- C8: `removePR` is a no-op — it returns `.ok` with the store unchanged —
both when no record exists for the id and when the stored record's
repository differs from the argument; otherwise it deletes the record and
the deletion verification (the record no longer reads back) passes. -/
theorem c8_removePR_noop_or_delete (store : MessageStore) (prId : Nat)
    (repository : String) :
    (lookupPR store prId = none → removePR store prId repository = .ok store) ∧
    (∀ rec, lookupPR store prId = some rec → rec.repository ≠ repository →
      removePR store prId repository = .ok store) ∧
    (∀ rec, lookupPR store prId = some rec → rec.repository = repository →
      removePR store prId repository = .ok (erasePR store prId) ∧
      lookupPR (erasePR store prId) prId = none) := by
  refine ⟨fun habsent => removePR_absent store prId repository habsent,
          fun rec hfound hne => ?_,
          fun rec hfound heq =>
            ⟨removePR_deletes store prId repository rec hfound heq,
             lookupPR_erasePR_self store prId⟩⟩
  unfold removePR
  rw [hfound]
  simp [hne]

/-- C8 witness: the theorem applied to `sampleStore` in its three cases —
an absent id, a repository mismatch, and a matching removal. -/
theorem c8_removePR_noop_or_delete_witness :
    lookupPR sampleStore 2 = none ∧
    removePR sampleStore 2 "ws/repo" = .ok sampleStore ∧
    removePR sampleStore 1 "other" = .ok sampleStore ∧
    removePR sampleStore 1 "ws/repo" = .ok (erasePR sampleStore 1) ∧
    lookupPR (erasePR sampleStore 1) 1 = none :=
  ⟨by decide,
   (c8_removePR_noop_or_delete sampleStore 2 "ws/repo").1 (by decide),
   (c8_removePR_noop_or_delete sampleStore 1 "other").2.1
     ⟨"42", "ws/repo", "t0"⟩ (by decide) (by decide),
   ((c8_removePR_noop_or_delete sampleStore 1 "ws/repo").2.2
     ⟨"42", "ws/repo", "t0"⟩ (by decide) (by decide)).1,
   ((c8_removePR_noop_or_delete sampleStore 1 "ws/repo").2.2
     ⟨"42", "ws/repo", "t0"⟩ (by decide) (by decide)).2⟩

/-- C2: for a pull-request id stored under the polled repository, absent
from the observed-open set, whose status query resolves to a non-"OPEN"
state (a 404 having been mapped to "CLOSED" by `getPRStatus`), the closure
sweep removes the store entry; a second `removePR` for the same id is a
no-op. -/
theorem c2_closure_sweep_removes (store : MessageStore) (prId : Nat)
    (rec : StoredRec) (sp : StoredPR) (repository : String)
    (activePRIds : List String) (resp : StatusResult) (prStatus : String)
    (hfound : lookupPR store prId = some rec)
    (hrepo : rec.repository = repository)
    (hparse : jsParseNat sp.prId = prId)
    (hinactive : sp.prId ∉ activePRIds)
    (hstatus : getPRStatus resp = .ok prStatus)
    (hnotopen : prStatus ≠ "OPEN") :
    sweepStoredPR store sp repository activePRIds resp = erasePR store prId ∧
    lookupPR (erasePR store prId) prId = none ∧
    removePR (erasePR store prId) prId repository = .ok (erasePR store prId) := by
  refine ⟨?_, lookupPR_erasePR_self store prId,
          removePR_absent _ prId repository (lookupPR_erasePR_self store prId)⟩
  unfold sweepStoredPR
  rw [if_neg hinactive, hstatus]
  simp only [hnotopen, ne_eq, not_false_eq_true, if_true, ite_true]
  unfold removeFromStore
  rw [hparse, removePR_deletes store prId repository rec hfound hrepo]

/-- C2 witness: PR 1 stored for "ws/repo", absent from the open set, with
the status query returning "MERGED". -/
theorem c2_closure_sweep_removes_witness :
    lookupPR sampleStore 1 = some ⟨"42", "ws/repo", "t0"⟩ ∧
    getPRStatus (.ok "MERGED") = .ok "MERGED" ∧
    sweepStoredPR sampleStore ⟨"1", "ws/repo", "42"⟩ "ws/repo" [] (.ok "MERGED")
      = erasePR sampleStore 1 ∧
    lookupPR (erasePR sampleStore 1) 1 = none ∧
    removePR (erasePR sampleStore 1) 1 "ws/repo" = .ok (erasePR sampleStore 1) :=
  ⟨by decide, rfl,
   c2_closure_sweep_removes sampleStore 1 ⟨"42", "ws/repo", "t0"⟩
     ⟨"1", "ws/repo", "42"⟩ "ws/repo" [] (.ok "MERGED") "MERGED"
     (by decide) (by decide) (by decide) (by decide) rfl (by decide)⟩

/-- `allReviewersApproved` holds exactly when the reviewer list is
non-empty and every reviewer's participation record exists with
`approved = true`. -/
lemma allReviewersApproved_iff (pr : PullRequest) :
    allReviewersApproved pr = true ↔
      pr.reviewers ≠ [] ∧
      ∀ r ∈ pr.reviewers,
        (findParticipant pr r).map Participant.approved = some true := by
  unfold allReviewersApproved
  rw [Bool.and_eq_true, decide_eq_true_eq, List.all_eq_true, List.length_pos]
  constructor
  · rintro ⟨h1, h2⟩
    refine ⟨h1, fun r hr => ?_⟩
    have hv := h2 r hr
    cases hf : findParticipant pr r with
    | none => rw [hf] at hv; exact absurd hv (by simp)
    | some p => rw [hf] at hv; simp only [Option.map_some']; simpa using hv
  · rintro ⟨h1, h2⟩
    refine ⟨h1, fun r hr => ?_⟩
    have hv := h2 r hr
    cases hf : findParticipant pr r with
    | none => simp [hf] at hv
    | some p =>
      simp only [hf, Option.map_some', Option.some_inj] at hv
      simp [hf, hv]

/-- C4: for a snapshot with a non-empty reviewer list, state "OPEN", and an
approved participation record for every reviewer, the update renderer takes
the all-approved branch — never the reminder branch (the all-approved guard
is evaluated first in `formatPullRequestUpdateMessage`). -/
theorem c4_all_approved_before_reminder (cfg : ReviewerMappings) (pr : PullRequest)
    (hstate : pr.state = "OPEN")
    (hne : pr.reviewers ≠ [])
    (happ : ∀ r ∈ pr.reviewers,
      (findParticipant pr r).map Participant.approved = some true) :
    classifyUpdate cfg pr = .allApproved ∧
    ∀ pending, classifyUpdate cfg pr ≠ .reminderUpdate pending := by
  have hall : allReviewersApproved pr = true :=
    (allReviewersApproved_iff pr).mpr ⟨hne, happ⟩
  have hcl : classifyUpdate cfg pr = .allApproved := by
    unfold classifyUpdate
    rw [hstate]
    simp [hall]
  exact ⟨hcl, fun pending h => by rw [hcl] at h; exact UpdateOutcome.noConfusion h⟩

/-- C4 witness: both reviewers of `samplePrAllApproved` have approved
records and the snapshot is open. -/
theorem c4_all_approved_before_reminder_witness :
    samplePrAllApproved.state = "OPEN" ∧
    samplePrAllApproved.reviewers ≠ [] ∧
    (∀ r ∈ samplePrAllApproved.reviewers,
      (findParticipant samplePrAllApproved r).map Participant.approved = some true) ∧
    (classifyUpdate sampleCfg samplePrAllApproved = .allApproved ∧
     ∀ pending,
       classifyUpdate sampleCfg samplePrAllApproved ≠ .reminderUpdate pending) :=
  ⟨rfl, by decide, by decide,
   c4_all_approved_before_reminder sampleCfg samplePrAllApproved rfl
     (by decide) (by decide)⟩

/-- C5: when the all-approved condition fails and at least one reviewer is
pending, the update renderer takes the reminder branch, listing exactly
the pending reviewers in snapshot order, each resolved through the
identity→mention mapping with fallback to the raw display name. -/
theorem c5_reminder_lists_pending (cfg : ReviewerMappings) (pr : PullRequest)
    (hnotall : ¬(pr.state = "OPEN" ∧ pr.reviewers ≠ [] ∧
      ∀ r ∈ pr.reviewers,
        (findParticipant pr r).map Participant.approved = some true))
    (hpend : pr.reviewers.filter (isPendingReviewer pr) ≠ []) :
    classifyUpdate cfg pr =
      .reminderUpdate ((pr.reviewers.filter (isPendingReviewer pr)).map
        (fun r => resolveMention cfg r.display_name)) ∧
    formatPullRequestUpdateMessage cfg pr =
      some (reminderMessage ((pr.reviewers.filter (isPendingReviewer pr)).map
        (fun r => resolveMention cfg r.display_name)) pr) := by
  have hguard : (decide (pr.state = "OPEN") && allReviewersApproved pr) = false := by
    by_cases hs : pr.state = "OPEN"
    · cases hall : allReviewersApproved pr with
      | false => simp
      | true =>
        have h2 := (allReviewersApproved_iff pr).mp hall
        exact absurd ⟨hs, h2.1, h2.2⟩ hnotall
    · simp [hs]
  have hlen : 0 < (pendingReviewerMentions cfg pr).length := by
    unfold pendingReviewerMentions
    rw [List.length_map, List.length_pos]
    exact hpend
  have hcl : classifyUpdate cfg pr =
      .reminderUpdate (pendingReviewerMentions cfg pr) := by
    unfold classifyUpdate
    rw [hguard]
    simp only [Bool.false_eq_true, if_false]
    rw [if_pos hlen]
  refine ⟨hcl, ?_⟩
  unfold formatPullRequestUpdateMessage
  rw [hcl]
  rfl

/-- C5 witness: `samplePrPending` (Bob has no participation record) with
the mapping `Bob ↦ @bob`. -/
theorem c5_reminder_lists_pending_witness :
    ¬(samplePrPending.state = "OPEN" ∧ samplePrPending.reviewers ≠ [] ∧
      ∀ r ∈ samplePrPending.reviewers,
        (findParticipant samplePrPending r).map Participant.approved = some true) ∧
    samplePrPending.reviewers.filter (isPendingReviewer samplePrPending) ≠ [] ∧
    (classifyUpdate sampleCfg samplePrPending =
      .reminderUpdate ((samplePrPending.reviewers.filter
        (isPendingReviewer samplePrPending)).map
          (fun r => resolveMention sampleCfg r.display_name)) ∧
    formatPullRequestUpdateMessage sampleCfg samplePrPending =
      some (reminderMessage ((samplePrPending.reviewers.filter
        (isPendingReviewer samplePrPending)).map
          (fun r => resolveMention sampleCfg r.display_name)) samplePrPending)) :=
  ⟨by decide, by decide,
   c5_reminder_lists_pending sampleCfg samplePrPending (by decide) (by decide)⟩

/-- C6: a snapshot with no reviewers renders no update for an existing
thread: the classification is the no-change branch, the rendered message
is `null`, and `sendPullRequestNotification` enqueues nothing. -/
theorem c6_no_reviewers_no_change (cfg : ReviewerMappings) (st : SysState)
    (pr : PullRequest) (mid : String)
    (hrev : pr.reviewers = [])
    (hthread : getMessageId st.store pr.id = some mid) :
    classifyUpdate cfg pr = .noChange ∧
    formatPullRequestUpdateMessage cfg pr = none ∧
    sendPullRequestNotification cfg st pr = st := by
  have hcl : classifyUpdate cfg pr = .noChange := by
    simp [classifyUpdate, pendingReviewerMentions, allReviewersApproved, hrev]
  have hfmt : formatPullRequestUpdateMessage cfg pr = none := by
    unfold formatPullRequestUpdateMessage
    rw [hcl]
  refine ⟨hcl, hfmt, ?_⟩
  unfold sendPullRequestNotification
  rw [hthread, hfmt]

/-- C6 witness: the all-approved sample with its reviewer list emptied,
against the store holding thread "42" for PR 1. -/
theorem c6_no_reviewers_no_change_witness :
    ({ samplePrAllApproved with reviewers := [] } : PullRequest).reviewers = [] ∧
    getMessageId sampleStore ({ samplePrAllApproved with reviewers := [] } :
      PullRequest).id = some "42" ∧
    (classifyUpdate sampleCfg { samplePrAllApproved with reviewers := [] } = .noChange ∧
     formatPullRequestUpdateMessage sampleCfg
       { samplePrAllApproved with reviewers := [] } = none ∧
     sendPullRequestNotification sampleCfg ⟨[], sampleStore, false⟩
       { samplePrAllApproved with reviewers := [] } = ⟨[], sampleStore, false⟩) :=
  ⟨rfl, by decide,
   c6_no_reviewers_no_change sampleCfg ⟨[], sampleStore, false⟩
     { samplePrAllApproved with reviewers := [] } "42" rfl (by decide)⟩

/-- A 429 from the first gateway call makes the whole attempt fail with
status 429, for replies and root posts alike. -/
lemma attemptDeliver_429 (store : MessageStore) (m : QueuedMessage) (env : DrainEnv)
    (h429 : env.postResult = .err (some 429)) :
    attemptDeliver store m env = .error (some 429) := by
  unfold attemptDeliver
  cases htr : jsTruthyStr m.parentMessageId <;> simp [htr, h429]

/-- A 429 drain attempt below the retry cap increments the head item's
counter in place. -/
lemma pmq_429_retry (m : QueuedMessage) (rest : List QueuedMessage)
    (store : MessageStore) (env : DrainEnv)
    (h429 : env.postResult = .err (some 429)) (hlt : m.retries < MAX_RETRIES) :
    processMessageQueue ⟨m :: rest, store, false⟩ env
      = ⟨{ m with retries := m.retries + 1 } :: rest, store, false⟩ := by
  unfold processMessageQueue
  simp [attemptDeliver_429 store m env h429, hlt]

/-- A 429 drain attempt at the retry cap drops the head item. -/
lemma pmq_429_drop (m : QueuedMessage) (rest : List QueuedMessage)
    (store : MessageStore) (env : DrainEnv)
    (h429 : env.postResult = .err (some 429)) (hge : ¬ m.retries < MAX_RETRIES) :
    processMessageQueue ⟨m :: rest, store, false⟩ env = ⟨rest, store, false⟩ := by
  unfold processMessageQueue
  simp [attemptDeliver_429 store m env h429, hge]

/-- C3 counterexample: with a fresh head item (`retries = 0`) and a gateway
answering 429 to every call, three consecutive drain attempts do NOT drop
the item — it is still at the head with `retries = 3`, so the queue has
not advanced to the next item. -/
theorem c3_three_429s_keep_head :
    (processMessageQueue (processMessageQueue (processMessageQueue
        ⟨[sampleReplyMsg, sampleNextMsg], [], false⟩ sampleEnv429)
        sampleEnv429) sampleEnv429).messageQueue
      = [{ sampleReplyMsg with retries := 3 }, sampleNextMsg] ∧
    (processMessageQueue (processMessageQueue (processMessageQueue
        ⟨[sampleReplyMsg, sampleNextMsg], [], false⟩ sampleEnv429)
        sampleEnv429) sampleEnv429).messageQueue
      ≠ [sampleNextMsg] :=
  ⟨rfl, by decide⟩

/-- C3 amended: a head item whose retry counter starts at 0 survives three
consecutive 429 drain attempts (ending at the head with `retries = 3`) and
is dropped on the fourth consecutive 429 attempt, after which the queue
has advanced to the next item. -/
theorem c3_dropped_after_fourth_429 (m : QueuedMessage) (rest : List QueuedMessage)
    (store : MessageStore) (env : DrainEnv)
    (hret : m.retries = 0) (h429 : env.postResult = .err (some 429)) :
    (processMessageQueue (processMessageQueue (processMessageQueue
        ⟨m :: rest, store, false⟩ env) env) env
      = ⟨{ m with retries := 3 } :: rest, store, false⟩) ∧
    (processMessageQueue (processMessageQueue (processMessageQueue
        (processMessageQueue ⟨m :: rest, store, false⟩ env) env) env) env
      = ⟨rest, store, false⟩) := by
  obtain ⟨msg, parent, prId, repo, r⟩ := m
  change r = 0 at hret
  subst hret
  have h1 : processMessageQueue ⟨⟨msg, parent, prId, repo, 0⟩ :: rest, store, false⟩ env
      = ⟨⟨msg, parent, prId, repo, 1⟩ :: rest, store, false⟩ :=
    pmq_429_retry ⟨msg, parent, prId, repo, 0⟩ rest store env h429
      (by change (0 : Nat) < MAX_RETRIES; decide)
  have h2 : processMessageQueue ⟨⟨msg, parent, prId, repo, 1⟩ :: rest, store, false⟩ env
      = ⟨⟨msg, parent, prId, repo, 2⟩ :: rest, store, false⟩ :=
    pmq_429_retry ⟨msg, parent, prId, repo, 1⟩ rest store env h429
      (by change (1 : Nat) < MAX_RETRIES; decide)
  have h3 : processMessageQueue ⟨⟨msg, parent, prId, repo, 2⟩ :: rest, store, false⟩ env
      = ⟨⟨msg, parent, prId, repo, 3⟩ :: rest, store, false⟩ :=
    pmq_429_retry ⟨msg, parent, prId, repo, 2⟩ rest store env h429
      (by change (2 : Nat) < MAX_RETRIES; decide)
  have h4 : processMessageQueue ⟨⟨msg, parent, prId, repo, 3⟩ :: rest, store, false⟩ env
      = ⟨rest, store, false⟩ :=
    pmq_429_drop ⟨msg, parent, prId, repo, 3⟩ rest store env h429
      (by change ¬ (3 : Nat) < MAX_RETRIES; decide)
  rw [h1, h2, h3]
  exact ⟨rfl, h4⟩

/-- C3 amended witness: the concrete head item `sampleReplyMsg` under the
always-429 gateway. -/
theorem c3_dropped_after_fourth_429_witness :
    sampleReplyMsg.retries = 0 ∧
    sampleEnv429.postResult = .err (some 429) ∧
    ((processMessageQueue (processMessageQueue (processMessageQueue
        ⟨[sampleReplyMsg, sampleNextMsg], [], false⟩ sampleEnv429)
        sampleEnv429) sampleEnv429
      = ⟨[{ sampleReplyMsg with retries := 3 }, sampleNextMsg], [], false⟩) ∧
    (processMessageQueue (processMessageQueue (processMessageQueue
        (processMessageQueue ⟨[sampleReplyMsg, sampleNextMsg], [], false⟩
          sampleEnv429) sampleEnv429) sampleEnv429) sampleEnv429
      = ⟨[sampleNextMsg], [], false⟩)) :=
  ⟨rfl, rfl,
   c3_dropped_after_fourth_429 sampleReplyMsg [sampleNextMsg] [] sampleEnv429
     rfl rfl⟩

/-- C9: the drain worker is head-of-line and single-flight: a trigger that
fires while a drain is in flight or while the queue is empty changes
nothing and attempts no delivery; any attempted message is the head of the
queue; enqueue appends to the tail only; and a 429 below the retry cap
leaves the (incremented) head in place, so the second item is not reached
while the first awaits a retry. -/
theorem c9_single_flight_head_of_line (st : SysState) (env : DrainEnv) :
    (st.isProcessing = true →
      processMessageQueue st env = st ∧ drainAttempt st = none) ∧
    (st.messageQueue = [] →
      processMessageQueue st env = st ∧ drainAttempt st = none) ∧
    (∀ m, drainAttempt st = some m → st.messageQueue.head? = some m) ∧
    (∀ queue msg parent prId repo,
      queueMessage queue msg parent prId repo
        = queue ++ [⟨msg, parent, prId, repo, 0⟩]) ∧
    (∀ m rest, st.messageQueue = m :: rest → st.isProcessing = false →
      env.postResult = .err (some 429) → m.retries < MAX_RETRIES →
      processMessageQueue st env
        = ⟨{ m with retries := m.retries + 1 } :: rest, st.store, false⟩) := by
  refine ⟨fun h => ?_, fun h => ?_, fun m h => ?_, fun _ _ _ _ _ => rfl,
          fun m rest hq hp h429 hlt => ?_⟩
  · constructor
    · unfold processMessageQueue
      rw [h]
      simp
    · unfold drainAttempt
      rw [h]
      simp
  · constructor
    · unfold processMessageQueue
      rw [h]
      simp
    · unfold drainAttempt
      rw [h]
      simp
  · unfold drainAttempt at h
    split at h
    · exact absurd h (by simp)
    · exact h
  · obtain ⟨q, store2, b⟩ := st
    change q = m :: rest at hq
    change b = false at hp
    subst hq
    subst hp
    exact pmq_429_retry m rest store2 env h429 hlt

/-- C9 witness: the in-flight guard, the empty-queue guard, the
head-of-line attempt, tail-append, and the retry-keeps-head case, each at
a concrete state. -/
theorem c9_single_flight_head_of_line_witness :
    (processMessageQueue ⟨[sampleReplyMsg], [], true⟩ sampleEnv429
       = ⟨[sampleReplyMsg], [], true⟩ ∧
     drainAttempt ⟨[sampleReplyMsg], [], true⟩ = none) ∧
    (processMessageQueue ⟨[], sampleStore, false⟩ sampleEnv429
       = ⟨[], sampleStore, false⟩ ∧
     drainAttempt ⟨[], sampleStore, false⟩ = none) ∧
    (⟨[sampleReplyMsg, sampleNextMsg], [], false⟩ : SysState).messageQueue.head?
       = some sampleReplyMsg ∧
    queueMessage [] "hi" none none none = [⟨"hi", none, none, none, 0⟩] ∧
    processMessageQueue ⟨[sampleReplyMsg, sampleNextMsg], [], false⟩ sampleEnv429
       = ⟨[{ sampleReplyMsg with retries := 1 }, sampleNextMsg], [], false⟩ :=
  ⟨(c9_single_flight_head_of_line ⟨[sampleReplyMsg], [], true⟩ sampleEnv429).1 rfl,
   (c9_single_flight_head_of_line ⟨[], sampleStore, false⟩ sampleEnv429).2.1 rfl,
   (c9_single_flight_head_of_line ⟨[sampleReplyMsg, sampleNextMsg], [], false⟩
     sampleEnv429).2.2.1 sampleReplyMsg rfl,
   (c9_single_flight_head_of_line ⟨[sampleReplyMsg, sampleNextMsg], [], false⟩
     sampleEnv429).2.2.2.1 [] "hi" none none none,
   (c9_single_flight_head_of_line ⟨[sampleReplyMsg, sampleNextMsg], [], false⟩
     sampleEnv429).2.2.2.2 sampleReplyMsg [sampleNextMsg] rfl rfl rfl (by decide)⟩

/-- C10: when a root post's gateway response carries no message id
(`response.data?.data?.id` absent), the attempt is terminal success: the
head item is removed, no thread is created and no ThreadRecord is written
(the store is unchanged), and a pull request still absent from the store
is classified as a new pull request — `sendPullRequestNotification`
enqueues a root message for it. -/
theorem c10_root_without_id_terminal_success (st : SysState) (env : DrainEnv)
    (m : QueuedMessage) (rest : List QueuedMessage)
    (hq : st.messageQueue = m :: rest) (hp : st.isProcessing = false)
    (hroot : jsTruthyStr m.parentMessageId = false)
    (hnoid : env.postResult = .ok none) :
    processMessageQueue st env = ⟨rest, st.store, false⟩ ∧
    (∀ cfg queue b (pr : PullRequest), getMessageId st.store pr.id = none →
      sendPullRequestNotification cfg ⟨queue, st.store, b⟩ pr
        = ⟨queueMessage queue (formatPullRequestMessage pr) none (some pr.id)
            (some pr.source.repository.full_name), st.store, b⟩) := by
  obtain ⟨q, store2, bb⟩ := st
  change q = m :: rest at hq
  change bb = false at hp
  subst hq
  subst hp
  constructor
  · have hdel : attemptDeliver store2 m env = .ok store2 := by
      unfold attemptDeliver
      rw [hroot]
      simp [hnoid]
    unfold processMessageQueue
    simp [hdel]
  · intro cfg queue b pr hnone
    unfold sendPullRequestNotification
    rw [hnone]

/-- C10 witness: `sampleRootMsg` delivered against a gateway whose success
payload has no id, starting from the empty store. -/
theorem c10_root_without_id_terminal_success_witness :
    (⟨[sampleRootMsg, sampleNextMsg], [], false⟩ : SysState).messageQueue
      = sampleRootMsg :: [sampleNextMsg] ∧
    jsTruthyStr sampleRootMsg.parentMessageId = false ∧
    sampleEnvNoId.postResult = .ok none ∧
    (processMessageQueue ⟨[sampleRootMsg, sampleNextMsg], [], false⟩ sampleEnvNoId
       = ⟨[sampleNextMsg], [], false⟩ ∧
     (∀ cfg queue b (pr : PullRequest), getMessageId [] pr.id = none →
       sendPullRequestNotification cfg ⟨queue, [], b⟩ pr
         = ⟨queueMessage queue (formatPullRequestMessage pr) none (some pr.id)
             (some pr.source.repository.full_name), [], b⟩)) :=
  ⟨rfl, rfl, rfl,
   c10_root_without_id_terminal_success ⟨[sampleRootMsg, sampleNextMsg], [], false⟩
     sampleEnvNoId sampleRootMsg [sampleNextMsg] rfl rfl rfl rfl⟩

/-- C1: the periodic `checkPullRequests` cycle calls
`sendPullRequestNotification` only when `hasPendingReviewers` holds, so a
snapshot whose reviewers have ALL approved enqueues NOTHING during the
cycle — even though a thread is stored for it, the renderer classifies it
as all-approved, and the direct notification path would enqueue exactly
one all-approved reply (mentioning the author) addressed to the stored
thread id. -/
theorem c1_poll_cycle_skips_all_approved :
    hasPendingReviewers samplePrAllApproved = false ∧
    classifyUpdate sampleCfg samplePrAllApproved = .allApproved ∧
    checkOpenPRs sampleCfg ⟨[], sampleStore, false⟩ [samplePrAllApproved]
      = ⟨[], sampleStore, false⟩ ∧
    (sendPullRequestNotification sampleCfg ⟨[], sampleStore, false⟩
        samplePrAllApproved).messageQueue
      = [⟨allApprovedMessage sampleCfg samplePrAllApproved, some "42", some 1,
          some "ws/repo", 0⟩] ∧
    (∃ pre post,
      allApprovedMessage sampleCfg samplePrAllApproved
        = pre ++ samplePrAllApproved.author.display_name ++ post) :=
  ⟨rfl, rfl, rfl, rfl,
   ⟨"🎉 *Все ревьюеры одобрили PR!*\n",
    ", ваш PR готов к мерджу:\nPR: T\n\n*Одобрено:*\n✅ Alice\n✅ Bob\n\n🔗 http://x",
    by decide⟩⟩

end PRBot
